import Mathlib

/-!
Shallow embedding of the invoice validation / export pipeline of
`shopify-db` (files `tripletex.py` and `shopifydb.py`).

Modelling conventions:
* A pandas `DataFrame` of invoice lines is a `List InvoiceRow`; `NaN` / null
  cells are `none` of an `Option` type.
* Money and line quantities are modelled over `ℚ` (the Python code uses
  floats; the claims under scrutiny are about the comparison structure of
  the checks, which is exact over `ℚ`).
* A Python function that can raise an exception is embedded as an
  `Option`- or `Except`-valued function, `none` / `.error` standing for the
  raised exception.  The exception paths modelled are the ones the source
  can actually hit: `min()` / `max()` on an empty sequence inside
  `_order_no` / `_invoice_no`, `int()` on a non-numeric or missing order
  suffix, the `", ".join(...)` calls in the warning f-strings (which raise
  `TypeError` when the joined order list contains a `NaN`), and the
  allowlist comprehension `[i[1] for i in gateway]` when `gateway is None`.
* `logging.warning` output is modelled as data: each check also exposes the
  collection of items it reports.
-/

namespace ShopifyDb

/-- One row of the denormalized invoice table produced by
`db.get_tripletex_invoice` (columns as named in `tripletex.py`).  Every
column is nullable, `none` modelling pandas `NaN`. -/
structure InvoiceRow where
  customer_no : Option String
  order_no : Option String
  paid_amount : Option ℚ
  line_count : Option ℚ
  unit_price : Option ℚ
  vat_code : Option String
  payment_type : Option String
  invoice_date : Option String
  delivery_date : Option String
  order_date : Option String
  due_date : Option String
  invoice_no : Option Int
  customer_name : Option String
  prod_name : Option String
  discount : Option ℚ
  prod_description : Option String
  prod_no : Option String
deriving DecidableEq, Repr

/-- A serialized cell of the export file. -/
inductive Cell where
  | null : Cell
  | str : String → Cell
  | num : ℚ → Cell
  | int : Int → Cell
deriving DecidableEq, Repr

def Cell.isNull : Cell → Bool
  | Cell.null => true
  | _ => false

def cellOfStr : Option String → Cell
  | none => Cell.null
  | some s => Cell.str s

def cellOfNum : Option ℚ → Cell
  | none => Cell.null
  | some q => Cell.num q

def cellOfInt : Option Int → Cell
  | none => Cell.null
  | some n => Cell.int n

/-- `INVOICE_REQUIRED_FIELDS` from `tripletex.py`. -/
def INVOICE_REQUIRED_FIELDS : List String :=
  ["CUSTOMER NO", "ORDER NO", "PAID AMOUNT", "ORDER LINE - COUNT",
   "ORDER LINE - UNIT PRICE", "ORDER LINE - VAT CODE", "PAYMENT TYPE",
   "INVOICE DATE", "DELIVERY DATE", "ORDER DATE", "DUE DATE", "INVOICE NO"]

/-- `INVOICE_OPTIONAL_FIELDS` from `tripletex.py`. -/
def INVOICE_OPTIONAL_FIELDS : List String :=
  ["CUSTOMER NAME", "ORDER LINE - PROD NAME", "ORDER LINE - DISCOUNT",
   "ORDER LINE - DESCRIPTION", "ORDER LINE - PROD NO"]

/-- Column access `df[f]` for one row, over the fixed schema.  (A name
outside the schema would be a structural `KeyError` in pandas; the source
only ever accesses the fixed field lists, so the default branch is
unreachable in the modelled code.) -/
def getCell (r : InvoiceRow) (f : String) : Cell :=
  if f = "CUSTOMER NO" then cellOfStr r.customer_no
  else if f = "ORDER NO" then cellOfStr r.order_no
  else if f = "PAID AMOUNT" then cellOfNum r.paid_amount
  else if f = "ORDER LINE - COUNT" then cellOfNum r.line_count
  else if f = "ORDER LINE - UNIT PRICE" then cellOfNum r.unit_price
  else if f = "ORDER LINE - VAT CODE" then cellOfStr r.vat_code
  else if f = "PAYMENT TYPE" then cellOfStr r.payment_type
  else if f = "INVOICE DATE" then cellOfStr r.invoice_date
  else if f = "DELIVERY DATE" then cellOfStr r.delivery_date
  else if f = "ORDER DATE" then cellOfStr r.order_date
  else if f = "DUE DATE" then cellOfStr r.due_date
  else if f = "INVOICE NO" then cellOfInt r.invoice_no
  else if f = "CUSTOMER NAME" then cellOfStr r.customer_name
  else if f = "ORDER LINE - PROD NAME" then cellOfStr r.prod_name
  else if f = "ORDER LINE - DISCOUNT" then cellOfNum r.discount
  else if f = "ORDER LINE - DESCRIPTION" then cellOfStr r.prod_description
  else if f = "ORDER LINE - PROD NO" then cellOfStr r.prod_no
  else Cell.null

/-- `df.loc[df[field].isna()]["ORDER NO"].unique()` — the distinct order
numbers (possibly `NaN`) of the rows whose cell in `field` is null.
(pandas `unique` preserves one occurrence per value; only membership and
emptiness of this list are consumed.) -/
def missingFor (df : List InvoiceRow) (field : String) : List (Option String) :=
  ((df.filter fun r => (getCell r field).isNull).map (fun r => r.order_no)).dedup

/-- The per-field warning payloads `_none_values` logs: each required field
together with its non-empty list of offending order numbers. -/
def none_values_warnings (df : List InvoiceRow) :
    List (String × List (Option String)) :=
  (INVOICE_REQUIRED_FIELDS.map (fun f => (f, missingFor df f))).filter
    (fun p => ¬ p.2.isEmpty)

/-- `_none_values` from `tripletex.py`.  The loop warns once per required
field, but `missing` is rebound on every iteration and the `return`
statement only inspects the binding left by the LAST field of
`INVOICE_REQUIRED_FIELDS` (namely `INVOICE NO`).  `none` models the
`TypeError` raised by `", ".join(missing)` when an offending row has a
null `ORDER NO`. -/
def none_values (df : List InvoiceRow) : Option Bool :=
  if INVOICE_REQUIRED_FIELDS.any (fun f => (missingFor df f).any Option.isNone)
  then none
  else some ((INVOICE_REQUIRED_FIELDS.foldl
      (fun _ f => missingFor df f) []).isEmpty)

/-- The distinct order numbers of rows whose `ORDER LINE - PROD NO` and
`ORDER LINE - DESCRIPTION` are both null (`_description_or_sku`). -/
def description_or_sku_errors (df : List InvoiceRow) : List (Option String) :=
  ((df.filter fun r => r.prod_no.isNone && r.prod_description.isNone).map
    (fun r => r.order_no)).dedup

/-- `_description_or_sku` from `tripletex.py`.  `none` models the
`TypeError` from joining a `NaN` order number into the warning. -/
def description_or_sku (df : List InvoiceRow) : Option Bool :=
  if (description_or_sku_errors df).any Option.isNone then none
  else some (description_or_sku_errors df).isEmpty

/-- `[b, b+1, ..., e-1]`, the Python `range(b, e)` over integers. -/
def intRange (b e : Int) : List Int :=
  (List.range (e - b).toNat).map (fun (k : Nat) => b + (k : Int))

/-- Python string slicing `s[1:]`: drop the first character (the empty
string stays empty). -/
def pyDrop1 (s : String) : String := String.mk (s.data.drop 1)

/-- Digit-string accumulator for `pyInt?`. -/
def natOfDigits : List Char → Nat → Option Nat
  | [], acc => some acc
  | c :: t, acc =>
    if c.isDigit then natOfDigits t (acc * 10 + (c.toNat - 48)) else none

/-- Python `int(s)` on a character list: an optional leading sign followed
by at least one digit; anything else raises `ValueError` (`none`).
(Python additionally strips surrounding whitespace and allows digit-group
underscores; no order-number suffix in this pipeline contains either.) -/
def pyIntOfChars : List Char → Option Int
  | [] => none
  | c :: t =>
    if c = Char.ofNat 45 then
      match t with
      | [] => none
      | _ => (natOfDigits t 0).map (fun n => -(n : Int))
    else (natOfDigits (c :: t) 0).map (fun n => (n : Int))

/-- Python `int(s)` for strings. -/
def pyInt? (s : String) : Option Int := pyIntOfChars s.data

/-- `df.loc[df["PAID AMOUNT"] >= 0]["ORDER NO"].str[1:].unique()`:
the distinct order-number suffixes (first character stripped) of the rows
with non-negative paid amount.  A `NaN` paid amount compares `False`
against `0`, excluding the row; a `NaN` order number survives `.str[1:]`
and `unique` as `NaN` (`none`). -/
def orderSuffixes (df : List InvoiceRow) : List (Option String) :=
  ((df.filter fun r =>
      match r.paid_amount with
      | some q => decide (0 ≤ q)
      | none => false).map
    (fun r => r.order_no.map pyDrop1)).dedup

/-- `some xs` when every element is `some`, else `none`; models mapping
Python `int()` (or any raising conversion) over a list. -/
def optList {α : Type} : List (Option α) → Option (List α)
  | [] => some []
  | none :: _ => none
  | some a :: t => (optList t).map (fun l => a :: l)

/-- `[int(i) for i in ...]` over the order suffixes; `none` models the
`ValueError` / `TypeError` `int()` raises on a non-numeric suffix or a
`NaN` entry. -/
def parsedOrders (df : List InvoiceRow) : Option (List Int) :=
  optList ((orderSuffixes df).map (fun o => o.bind pyInt?))

/-- `_order_no` from `tripletex.py`, returning the pass/fail boolean
together with the logged `missing_orders` strings.  `none` models the
exceptions the function can raise: `int()` on a bad suffix, and
`min()` / `max()` on the empty sequence when no row with
`PAID AMOUNT >= 0` exists. -/
def order_no_check (df : List InvoiceRow) : Option (Bool × List String) :=
  match parsedOrders df with
  | none => none
  | some orders =>
    match orders with
    | [] => none
    | h :: t =>
      let mn := t.foldl min h
      let mx := t.foldl max h
      let missing := ((intRange (mn + 1) mx).filter
          (fun i => decide (i ∉ orders))).map
        (fun i => "#" ++ toString i)
      some (missing.isEmpty, missing)

/-- `_invoice_no` from `tripletex.py`: gap detection over the distinct
`INVOICE NO` values.  `none` models `int(NaN)` raising, and `min()` on the
empty sequence for an empty table. -/
def invoice_no_check (df : List InvoiceRow) : Option (Bool × List String) :=
  match optList ((df.map (fun r => r.invoice_no)).dedup) with
  | none => none
  | some inv =>
    match inv with
    | [] => none
    | h :: t =>
      let mn := t.foldl min h
      let mx := t.foldl max h
      let missing := ((intRange (mn + 1) mx).filter
          (fun i => decide (i ∉ inv))).map (fun i => toString i)
      some (missing.isEmpty, missing)

/-- The derived column `price_after_discount` that `_price` computes:
`ORDER LINE - COUNT * ORDER LINE - UNIT PRICE * (100 - ORDER LINE - DISCOUNT) / 100`;
`none` when any factor is null (`NaN` propagates). -/
def price_after_discount (r : InvoiceRow) : Option ℚ :=
  match r.line_count, r.unit_price, r.discount with
  | some c, some u, some d => some (c * u * (100 - d) / 100)
  | _, _, _ => none

/-- The distinct non-null order numbers, the group keys of
`df.groupby(["ORDER NO"])` (pandas drops `NaN` keys). -/
def distinctOrders (df : List InvoiceRow) : List String :=
  (df.filterMap (fun r => r.order_no)).dedup

/-- The rows of one order group. -/
def rowsOf (df : List InvoiceRow) (o : String) : List InvoiceRow :=
  df.filter (fun r => r.order_no = some o)

/-- `pd.NamedAgg("PAID AMOUNT", "first")`: the first non-null
`PAID AMOUNT` of the group (pandas `first` skips `NaN`). -/
def firstPaid (df : List InvoiceRow) (o : String) : Option ℚ :=
  ((rowsOf df o).filterMap (fun r => r.paid_amount)).head?

/-- `pd.NamedAgg("price_after_discount", "sum")`: the group sum, skipping
null entries (pandas `sum` skips `NaN`; an all-null group sums to `0`). -/
def lineTotal (df : List InvoiceRow) (o : String) : ℚ :=
  ((rowsOf df o).filterMap price_after_discount).foldl (fun a b => a + b) 0

/-- One group's row of `price_mismatch` in `_price`: the order number
and absolute deviation when `abs(paid - total) > abs(paid) * 0.01`.  A
group whose aggregated paid amount is `NaN` is never flagged
(`NaN > x` is `False` in pandas). -/
def priceFlag (df : List InvoiceRow) (o : String) : Option (String × ℚ) :=
  match firstPaid df o with
  | none => none
  | some p =>
    if |p - lineTotal df o| > |p| * (1 / 100) then
      some (o, |p - lineTotal df o|)
    else none

/-- The rows of `price_mismatch` in `_price`. -/
def priceMismatch (df : List InvoiceRow) : List (String × ℚ) :=
  (distinctOrders df).filterMap (priceFlag df)

/-- `_price` from `tripletex.py`: pass iff no group deviates by more than
1% of its paid amount. -/
def price (df : List InvoiceRow) : Bool :=
  (priceMismatch df).isEmpty

/-- `sorted(set(list(df.loc[df["PAID AMOUNT"] <= 0]["ORDER NO"])))` —
the distinct order numbers of rows with non-positive paid amount
(`_refunds`).  Only membership and emptiness are consumed, so the sort is
left out. -/
def refund_orders (df : List InvoiceRow) : List (Option String) :=
  ((df.filter fun r =>
      match r.paid_amount with
      | some q => decide (q ≤ 0)
      | none => false).map (fun r => r.order_no)).dedup

/-- `_refunds` from `tripletex.py`: returns `len(refunds) == 0`, i.e.
`False` (check FAILED) whenever any refund row exists.  `none` models the
`TypeError` from sorting / joining a `NaN` order number. -/
def refunds (df : List InvoiceRow) : Option Bool :=
  if (refund_orders df).any Option.isNone then none
  else some (refund_orders df).isEmpty

/-- The distinct order numbers of rows with `prod_no == "GIFTCARD"`
(`_gift_cards`). -/
def gift_card_orders (df : List InvoiceRow) : List (Option String) :=
  ((df.filter fun r => r.prod_no = some "GIFTCARD").map
    (fun r => r.order_no)).dedup

/-- `_gift_cards` from `tripletex.py`: returns `False` whenever any
gift-card row exists. -/
def gift_cards (df : List InvoiceRow) : Option Bool :=
  if (gift_card_orders df).any Option.isNone then none
  else some (gift_card_orders df).isEmpty

/-- `_unknown_gateway` from `tripletex.py`.  With `gateway is None` it
returns `True` immediately.  Otherwise it flags one row per distinct
`(ORDER NO, PAYMENT TYPE)` pair whose payment type is outside the
allowlist; `NaN.isin(...)` is `False`, so a null payment type passes the
`~isin` filter, but `groupby` then drops the pair when either key is
null. -/
def unknown_gateway (df : List InvoiceRow) (gateway : Option (List String)) :
    Bool :=
  match gateway with
  | none => true
  | some gw =>
    (((df.filter fun r =>
        match r.payment_type with
        | some p => decide (p ∉ gw)
        | none => true).filterMap (fun r =>
          match r.order_no, r.payment_type with
          | some o, some p => some (o, p)
          | _, _ => none)).dedup).isEmpty

/-- Python `dict(pairs)` lookup: the LAST pair with the given key wins. -/
def dictGet : List (String × String) → String → Option String
  | [], _ => none
  | p :: t, s =>
    match dictGet t s with
    | some v => some v
    | none => if p.1 = s then some p.2 else none

/-- The value-level effect of `df["PAYMENT TYPE"].replace(gateway, ...)` on
one row: a payment type that is a key of the mapping becomes its mapped
value, anything else (including null) is unchanged. -/
def replaceGatewayRow (m : List (String × String)) (r : InvoiceRow) :
    InvoiceRow :=
  { r with payment_type := r.payment_type.map (fun s => (dictGet m s).getD s) }

/-- `replace_invoice_gateway` from `tripletex.py`.  The call
`df["PAYMENT TYPE"].replace(gateway, inplace=True)` mutates the caller's
DataFrame, and the function returns that same object; the result pair is
`(returned table, caller's table after the call)`. -/
def replace_invoice_gateway (df : List InvoiceRow)
    (m : List (String × String)) : List InvoiceRow × List InvoiceRow :=
  (df.map (replaceGatewayRow m), df.map (replaceGatewayRow m))

/-- `df.replace("", np.nan)` on one string cell. -/
def replaceEmptyStr (o : Option String) : Option String :=
  if o = some "" then none else o

/-- `df.replace("", np.nan)` on one row (the literal `""` can only match
string-typed cells; the subsequent
`df.fillna(value=np.nan, inplace=True)` replaces `NaN` by `NaN` and is a
no-op on values). -/
def replaceEmptyRow (r : InvoiceRow) : InvoiceRow :=
  { r with
    customer_no := replaceEmptyStr r.customer_no
    order_no := replaceEmptyStr r.order_no
    vat_code := replaceEmptyStr r.vat_code
    payment_type := replaceEmptyStr r.payment_type
    invoice_date := replaceEmptyStr r.invoice_date
    delivery_date := replaceEmptyStr r.delivery_date
    order_date := replaceEmptyStr r.order_date
    due_date := replaceEmptyStr r.due_date
    customer_name := replaceEmptyStr r.customer_name
    prod_name := replaceEmptyStr r.prod_name
    prod_description := replaceEmptyStr r.prod_description
    prod_no := replaceEmptyStr r.prod_no }

/-- The `tests_passed` list of `verify_invoices`, evaluated in source
order; the first check that raises aborts the call (`none`).  The verdict
`False not in tests_passed` is the conjunction of all EIGHT results —
`_refunds` and `_gift_cards` included. -/
def verify_checks (d : List InvoiceRow) (gateway : Option (List String)) :
    Option Bool := do
  let t1 ← refunds d
  let t2 ← gift_cards d
  let p3 ← order_no_check d
  let p4 ← invoice_no_check d
  let t5 ← none_values d
  let t6 ← description_or_sku d
  let t7 := price d
  let t8 := unknown_gateway d gateway
  pure (t1 && t2 && p3.1 && p4.1 && t5 && t6 && t7 && t8)

/-- `verify_invoices` from `tripletex.py`.  Its first statement
`df = df.replace("", np.nan)` rebinds the parameter to a fresh copy with
empty strings nulled; every check then runs on that copy. -/
def verify_invoices (df : List InvoiceRow)
    (gateway : Option (List String)) : Option Bool :=
  verify_checks (df.map replaceEmptyRow) gateway

/-- `verify_invoices` together with the caller's view: the pair is
`(verdict or exception, caller's DataFrame after the call)`.  The caller's
object is never mutated: the copy produced by `df.replace` absorbs the
in-place `fillna` and the derived `price_after_discount` column added by
`_price`. -/
def verify_invoices_full (df : List InvoiceRow)
    (gateway : Option (List String)) : Option Bool × List InvoiceRow :=
  (verify_invoices df gateway, df)

/-- The exported column order of `tripletex_generate`:
`INVOICE_REQUIRED_FIELDS + INVOICE_OPTIONAL_FIELDS`. -/
def EXPORT_COLUMNS : List String :=
  INVOICE_REQUIRED_FIELDS ++ INVOICE_OPTIONAL_FIELDS

/-- The file written by `DataFrame.to_csv(fn, index=False, sep=";")`:
field separator, the header row (`to_csv` default `header=True`), and the
data rows; no row-index column is present (`index=False`). -/
structure ExportFile where
  sep : String
  header : Option (List String)
  rows : List (List Cell)
deriving DecidableEq, Repr

/-- `invoices[cols].to_csv(fn, index=False, sep=";")`. -/
def to_csv (df : List InvoiceRow) (cols : List String) : ExportFile :=
  { sep := ";"
    header := some cols
    rows := df.map (fun r => cols.map (getCell r)) }

/-- The exceptions the orchestration layer can hit. -/
inductive PyError where
  | typeError : PyError
  | valueError : PyError
deriving DecidableEq, Repr

/-- The allowlist expression `[i[1] for i in gateway]` used by both
`tripletex_verify` and `tripletex_generate` in `shopifydb.py`: iterating
over `None` raises `TypeError`. -/
def buildAllowlist (gateway : Option (List (String × String))) :
    Except PyError (List String) :=
  match gateway with
  | none => Except.error PyError.typeError
  | some pairs => Except.ok (pairs.map (fun p => p.2))

/-- `verify_invoices` lifted to `Except`: an exception inside the checks
propagates (`ValueError` from `min()` on an empty sequence being the
representative case). -/
def runVerify (df : List InvoiceRow) (allow : Option (List String)) :
    Except PyError Bool :=
  match verify_invoices df allow with
  | none => Except.error PyError.valueError
  | some b => Except.ok b

/-- `tripletex_verify` from `shopifydb.py` (the table argument stands for
the DataFrame parsed from the CSV file).  The allowlist comprehension is
evaluated before `verify_invoices` is entered, so `gateway = None` raises
`TypeError` before any verification happens. -/
def tripletex_verify (invoices : List InvoiceRow)
    (gateway : Option (List (String × String))) : Except PyError Bool := do
  let allow ← buildAllowlist gateway
  runVerify invoices (some allow)

/-- `tripletex_generate` from `shopifydb.py` (the table argument stands
for the result of `get_invoices`).  Steps, in source order: rename
gateways when a mapping was supplied, build the allowlist (raises
`TypeError` on `None`), verify (the returned verdict is bound to nothing
and discarded by the source; it is kept in the result here to state
claims about it), then export the required + optional columns.  The
result is `(verdict, written file)`. -/
def tripletex_generate (tb : List InvoiceRow)
    (gateway : Option (List (String × String))) :
    Except PyError (Bool × ExportFile) :=
  let invoices :=
    match gateway with
    | some g => (replace_invoice_gateway tb g).1
    | none => tb
  match buildAllowlist gateway with
  | Except.error e => Except.error e
  | Except.ok allow =>
    match verify_invoices invoices (some allow) with
    | none => Except.error PyError.valueError
    | some b => Except.ok (b, to_csv invoices EXPORT_COLUMNS)

/-- A fully populated, internally consistent invoice line: order `#1`,
paid `100`, one line of unit price `100` with no discount. -/
def baseRow : InvoiceRow :=
  { customer_no := some "C1"
    order_no := some "#1"
    paid_amount := some 100
    line_count := some 1
    unit_price := some 100
    vat_code := some "3"
    payment_type := some "Vipps"
    invoice_date := some "2021-01-01"
    delivery_date := some "2021-01-02"
    order_date := some "2021-01-03"
    due_date := some "2021-01-04"
    invoice_no := some 1
    customer_name := some "A"
    prod_name := some "P"
    discount := some 0
    prod_description := some "D"
    prod_no := some "P1" }

/-- A two-row table whose only anomaly is a refund-only order: order `#2`
has `paid_amount = 0` and a line total of `0`, so every check except
`_refunds` passes. -/
def refundOnlyTable : List InvoiceRow :=
  [baseRow,
   { baseRow with
      order_no := some "#2"
      paid_amount := some 0
      unit_price := some 0
      invoice_no := some 2 }]

/-- A one-row table whose `CUSTOMER NO` is null while every other
required field — in particular `INVOICE NO`, the last one — is
populated. -/
def nullCustomerTable : List InvoiceRow :=
  [{ baseRow with customer_no := none }]

/-- A two-row table using `@` (not `#`) as the order-number marker, with
the interior order number `@2` absent. -/
def atMarkerGapTable : List InvoiceRow :=
  [{ baseRow with order_no := some "@1" },
   { baseRow with
      order_no := some "@3"
      invoice_no := some 2 }]

/-- A one-row table whose payment type is the lowercase `stripe`. -/
def stripeTable : List InvoiceRow :=
  [{ baseRow with payment_type := some "stripe" }]

/-- A one-row table whose line total (`100`) deviates from the paid
amount (`110`) by more than 1% of the paid amount. -/
def priceGapTable : List InvoiceRow :=
  [{ baseRow with paid_amount := some 110 }]

/-- A row whose `ORDER LINE - VAT CODE`, `ORDER LINE - PROD NO` and
`ORDER LINE - DESCRIPTION` all hold the empty string. -/
def emptyStringRow : InvoiceRow :=
  { baseRow with
      vat_code := some ""
      prod_no := some ""
      prod_description := some "" }

/- The Batteries rational operations are `@[irreducible]`; make them
unfold again so that concrete tables can be evaluated by `decide`. -/
attribute [local semireducible] Rat.mul Rat.add Rat.sub Rat.inv

/-- Membership in the Python-style integer range. -/
lemma mem_intRange {b e k : Int} : k ∈ intRange b e ↔ b ≤ k ∧ k < e := by
  unfold intRange
  constructor
  · intro h
    obtain ⟨j, hj, hk⟩ := List.mem_map.mp h
    rw [List.mem_range] at hj
    omega
  · intro h
    refine List.mem_map.mpr ⟨(k - b).toNat, ?_, ?_⟩
    · rw [List.mem_range]
      omega
    · omega

lemma filter_ne_nil_iff {α : Type} (p : α → Bool) (l : List α) :
    l.filter p ≠ [] ↔ ∃ x ∈ l, p x = true := by
  rw [Ne, List.filter_eq_nil_iff]
  push_neg
  simp

/-- Claim C1, counterexample: on a table whose only anomaly is the
refund-only order `#2` (`paid_amount = 0`), the six substantive checks
and the gift-card check all pass, yet `verify_invoices` returns `False`,
because `_refunds` returns `False` whenever a refund row exists and its
result is conjoined into the verdict. -/
theorem refund_only_table_fails_verdict :
    refunds (refundOnlyTable.map replaceEmptyRow) = some false
    ∧ gift_cards (refundOnlyTable.map replaceEmptyRow) = some true
    ∧ order_no_check (refundOnlyTable.map replaceEmptyRow) = some (true, [])
    ∧ invoice_no_check (refundOnlyTable.map replaceEmptyRow) = some (true, [])
    ∧ none_values (refundOnlyTable.map replaceEmptyRow) = some true
    ∧ description_or_sku (refundOnlyTable.map replaceEmptyRow) = some true
    ∧ price (refundOnlyTable.map replaceEmptyRow) = true
    ∧ unknown_gateway (refundOnlyTable.map replaceEmptyRow) none = true
    ∧ verify_invoices refundOnlyTable none = some false := by
  decide

/-- Claim C1, amended: the verdict of `verify_invoices` is the
conjunction of all EIGHT check results — the refund and gift-card
detections participate, so either of them failing makes the verdict
false. -/
theorem verify_verdict_conjoins_all_eight
    (df : List InvoiceRow) (gw : Option (List String))
    (t1 t2 t5 t6 : Bool) (p3 p4 : Bool × List String)
    (h1 : refunds (df.map replaceEmptyRow) = some t1)
    (h2 : gift_cards (df.map replaceEmptyRow) = some t2)
    (h3 : order_no_check (df.map replaceEmptyRow) = some p3)
    (h4 : invoice_no_check (df.map replaceEmptyRow) = some p4)
    (h5 : none_values (df.map replaceEmptyRow) = some t5)
    (h6 : description_or_sku (df.map replaceEmptyRow) = some t6) :
    verify_invoices df gw =
      some (t1 && t2 && p3.1 && p4.1 && t5 && t6 &&
        price (df.map replaceEmptyRow) &&
        unknown_gateway (df.map replaceEmptyRow) gw)
    ∧ (verify_invoices df gw = some true ↔
        t1 = true ∧ t2 = true ∧ p3.1 = true ∧ p4.1 = true ∧ t5 = true
        ∧ t6 = true ∧ price (df.map replaceEmptyRow) = true
        ∧ unknown_gateway (df.map replaceEmptyRow) gw = true) := by
  have key : verify_invoices df gw =
      some (t1 && t2 && p3.1 && p4.1 && t5 && t6 &&
        price (df.map replaceEmptyRow) &&
        unknown_gateway (df.map replaceEmptyRow) gw) := by
    simp [verify_invoices, verify_checks, h1, h2, h3, h4, h5, h6]
  refine ⟨key, ?_⟩
  rw [key]
  simp [Bool.and_eq_true, and_assoc]

/-- Claim C1, witness for the amended theorem at the refund-only table. -/
theorem verify_verdict_conjoins_all_eight_witness :
    verify_invoices refundOnlyTable none = some false := by
  have h := verify_verdict_conjoins_all_eight refundOnlyTable none
    false true true true (true, []) (true, [])
    (by decide) (by decide) (by decide) (by decide) (by decide) (by decide)
  exact h.1.trans (by decide)

/-- Claim C2: the loop of `_none_values` warns about the null
`CUSTOMER NO` of order `#1`, but the function still returns `True`
because its `return` statement only inspects the `missing` binding from
the final loop iteration (field `INVOICE NO`, which has no nulls here). -/
theorem none_values_ignores_nonfinal_fields :
    none_values nullCustomerTable = some true
    ∧ none_values_warnings nullCustomerTable = [("CUSTOMER NO", [some "#1"])]
    ∧ missingFor nullCustomerTable "CUSTOMER NO" = [some "#1"]
    ∧ missingFor nullCustomerTable "INVOICE NO" = [] := by
  decide

/-- Claim C3: on the empty table, `_order_no` and `_invoice_no` reach
`min()` on an empty sequence and raise (modelled by `none`), and the
exception propagates out of `verify_invoices`; the checks do not guard
the empty numeric range. -/
theorem empty_table_checks_raise :
    order_no_check ([] : List InvoiceRow) = none
    ∧ invoice_no_check ([] : List InvoiceRow) = none
    ∧ verify_invoices ([] : List InvoiceRow) none = none := by
  decide

/-- Claim C7, counterexample: after
`replace_invoice_gateway(df, \x7b"stripe": "Stripe"\x7d)` the caller's
table (second component) is no longer the original table — the rename
happened in place — refuting purity. -/
theorem replace_gateway_mutates_caller :
    (replace_invoice_gateway stripeTable [("stripe", "Stripe")]).2
      ≠ stripeTable
    ∧ ((replace_invoice_gateway stripeTable [("stripe", "Stripe")]).1).map
        (fun r => r.payment_type) = [some "Stripe"] := by
  decide

/-- Claim C7, amended: `replace_invoice_gateway` maps every matched
`payment_type` to its mapped value and leaves unmatched values (and all
other columns) unchanged, preserving row count and order — but it is not
pure: the in-place `Series.replace` mutates the caller's table, which
afterwards equals the returned table. -/
theorem replace_gateway_inplace_semantics (df : List InvoiceRow)
    (m : List (String × String)) :
    (replace_invoice_gateway df m).1 = df.map (replaceGatewayRow m)
    ∧ (replace_invoice_gateway df m).2 = (replace_invoice_gateway df m).1
    ∧ ((replace_invoice_gateway df m).1).length = df.length
    ∧ ((replace_invoice_gateway df m).1).map (fun r => r.payment_type) =
        df.map (fun r => r.payment_type.map (fun s => (dictGet m s).getD s))
    ∧ ∀ r : InvoiceRow,
        { replaceGatewayRow m r with payment_type := none } =
        { r with payment_type := none } := by
  refine ⟨rfl, rfl, by simp [replace_invoice_gateway], ?_, fun r => rfl⟩
  simp only [replace_invoice_gateway, List.map_map]
  exact List.map_congr_left (fun a _ => rfl)

/-- Claim C8: with the gateway option omitted (`None`), both subcommands
raise `TypeError` while evaluating `[i[1] for i in gateway]` — before any
verification result is produced and, for `tripletex-generate`, before any
file is written — even though `_unknown_gateway` itself returns `True`
for a `None` allowlist. -/
theorem gateway_none_raises_typeerror :
    (∀ tb : List InvoiceRow,
        tripletex_verify tb none = Except.error PyError.typeError)
    ∧ (∀ tb : List InvoiceRow,
        tripletex_generate tb none = Except.error PyError.typeError)
    ∧ ∀ df : List InvoiceRow, unknown_gateway df none = true := by
  exact ⟨fun tb => rfl, fun tb => rfl, fun df => rfl⟩

/-- Claim C9: `verify_invoices` rebinds its parameter to the fresh copy
produced by `df.replace("", np.nan)`; all checks (including `_price`,
which adds the derived column to the table it receives) run on that copy,
and the caller's table after the call is exactly the table before it. -/
theorem verify_invoices_preserves_caller (df : List InvoiceRow)
    (gw : Option (List String)) :
    (verify_invoices_full df gw).2 = df
    ∧ (verify_invoices_full df gw).1 =
        verify_checks (df.map replaceEmptyRow) gw :=
  ⟨rfl, rfl⟩

/-- Claim C4: whenever the verification step of `tripletex-generate`
returns a verdict at all, the export file is produced whatever that
verdict is, and it carries the 12 required columns followed by the 5
optional columns, separator `;`, a header row, and one data row per
table row (no index column). -/
theorem generate_exports_regardless_of_verdict
    (tb : List InvoiceRow) (g : List (String × String)) (b : Bool)
    (h : verify_invoices (replace_invoice_gateway tb g).1
        (some (g.map (fun p => p.2))) = some b) :
    tripletex_generate tb (some g) =
      Except.ok (b, to_csv (replace_invoice_gateway tb g).1 EXPORT_COLUMNS)
    ∧ (to_csv (replace_invoice_gateway tb g).1 EXPORT_COLUMNS).sep = ";"
    ∧ (to_csv (replace_invoice_gateway tb g).1 EXPORT_COLUMNS).header =
        some (INVOICE_REQUIRED_FIELDS ++ INVOICE_OPTIONAL_FIELDS)
    ∧ (to_csv (replace_invoice_gateway tb g).1 EXPORT_COLUMNS).rows =
        ((replace_invoice_gateway tb g).1).map
          (fun r => EXPORT_COLUMNS.map (getCell r)) := by
  refine ⟨?_, rfl, rfl, rfl⟩
  simp [tripletex_generate, buildAllowlist, h]

/-- Claim C4, witness: the refund-only table yields verdict `false`,
and the file is written all the same. -/
theorem generate_exports_regardless_of_verdict_witness :
    tripletex_generate refundOnlyTable (some [("stripe", "Stripe")]) =
      Except.ok (false,
        to_csv (replace_invoice_gateway refundOnlyTable
          [("stripe", "Stripe")]).1 EXPORT_COLUMNS) :=
  (generate_exports_regardless_of_verdict refundOnlyTable
    [("stripe", "Stripe")] false (by decide)).1

/-- Characterisation of one group's flag. -/
lemma priceFlag_eq_some {df : List InvoiceRow} {a o : String} {d : ℚ} :
    priceFlag df a = some (o, d) ↔
      ∃ p, firstPaid df a = some p ∧
        |p - lineTotal df a| > |p| * (1 / 100) ∧ o = a ∧
        d = |p - lineTotal df a| := by
  unfold priceFlag
  cases hp : firstPaid df a with
  | none =>
    show (none : Option (String × ℚ)) = some (o, d) ↔ _
    constructor
    · intro hcon
      exact absurd hcon (by simp)
    · rintro ⟨p, hp2, hrest⟩
      exact absurd hp2 (by simp)
  | some p =>
    show (if |p - lineTotal df a| > |p| * (1 / 100) then
        some (a, |p - lineTotal df a|) else none) = some (o, d) ↔ _
    by_cases hc : |p - lineTotal df a| > |p| * (1 / 100)
    · rw [if_pos hc]
      constructor
      · intro hf
        have hoa : a = o ∧ |p - lineTotal df a| = d := by simpa using hf
        obtain ⟨rfl, hd⟩ := hoa
        exact ⟨p, rfl, hc, rfl, hd.symm⟩
      · rintro ⟨p2, hp2, hc2, rfl, rfl⟩
        injection hp2 with hpp
        rw [hpp]
    · rw [if_neg hc]
      constructor
      · intro hcon
        exact absurd hcon (by simp)
      · rintro ⟨p2, hp2, hc2, rfl, rfl⟩
        injection hp2 with hpp
        rw [← hpp] at hc2
        exact absurd hc2 hc

/-- Membership in the `price_mismatch` rows of `_price`. -/
lemma mem_priceMismatch {df : List InvoiceRow} {o : String} {d : ℚ} :
    (o, d) ∈ priceMismatch df ↔
      o ∈ distinctOrders df ∧ ∃ p, firstPaid df o = some p ∧
        |p - lineTotal df o| > |p| * (1 / 100) ∧
        d = |p - lineTotal df o| := by
  unfold priceMismatch
  rw [List.mem_filterMap]
  constructor
  · rintro ⟨a, ha, hf⟩
    obtain ⟨p, hp, hc, rfl, rfl⟩ := priceFlag_eq_some.mp hf
    exact ⟨ha, p, hp, hc, rfl⟩
  · rintro ⟨ho, p, hp, hc, rfl⟩
    exact ⟨o, ho, priceFlag_eq_some.mpr ⟨p, hp, hc, rfl, rfl⟩⟩

/-- Claim C5: the price-reconciliation check fails exactly when some
distinct order's first (non-null) paid amount deviates from the
discounted line total by strictly more than 1% of its absolute value
(`>`, not `>=`), and every such order is reported together with the
deviation magnitude. -/
theorem price_check_fails_iff (df : List InvoiceRow) :
    (price df = false ↔
      ∃ o ∈ distinctOrders df, ∃ p, firstPaid df o = some p ∧
        |p - lineTotal df o| > |p| * (1 / 100))
    ∧ ∀ o p, o ∈ distinctOrders df → firstPaid df o = some p →
        |p - lineTotal df o| > |p| * (1 / 100) →
        (o, |p - lineTotal df o|) ∈ priceMismatch df := by
  constructor
  · simp only [price]
    rw [List.isEmpty_eq_false]
    constructor
    · intro hne
      obtain ⟨⟨o, d⟩, hmem⟩ := List.exists_mem_of_ne_nil _ hne
      obtain ⟨ho, p, hp, hc, hd⟩ := mem_priceMismatch.mp hmem
      exact ⟨o, ho, p, hp, hc⟩
    · rintro ⟨o, ho, p, hp, hc⟩
      intro hnil
      have hmem : (o, |p - lineTotal df o|) ∈ priceMismatch df :=
        mem_priceMismatch.mpr ⟨ho, p, hp, hc, rfl⟩
      rw [hnil] at hmem
      exact absurd hmem (List.not_mem_nil _)
  · intro o p ho hp hc
    exact mem_priceMismatch.mpr ⟨ho, p, hp, hc, rfl⟩

/-- Claim C5, witness: paid `110` against a line total of `100` (a
deviation of about 9%) makes the check fail and appear in the report. -/
theorem price_check_fails_iff_witness :
    price priceGapTable = false
    ∧ ("#1", |(110 : ℚ) - lineTotal priceGapTable "#1"|) ∈
        priceMismatch priceGapTable := by
  have h := price_check_fails_iff priceGapTable
  exact ⟨(h.1).mpr ⟨"#1", by decide, 110, by decide, by decide⟩,
    h.2 "#1" 110 (by decide) (by decide) (by decide)⟩

/-- Claim C6, counterexample: on a dataset whose order-number marker is
`@`, the check fails on the missing interior number as claimed, but the
report renders it as `#2` — the prefix is the hardcoded `#`, not the
dataset's own marker. -/
theorem order_no_report_uses_hash_marker :
    order_no_check atMarkerGapTable = some (false, ["#2"])
    ∧ atMarkerGapTable.map (fun r => r.order_no) =
        [some "@1", some "@3"] := by
  decide

/-- Claim C6, amended: restricted to rows with non-negative paid amount
and given that the suffixes parse to a non-empty integer list, the check
fails iff some integer strictly between the minimum and maximum parsed
values is absent, and the missing numbers are reported with the
hardcoded `#` prefix (which coincides with the dataset marker only when
that marker is `#`). -/
theorem order_no_gap_detection (df : List InvoiceRow) (h0 : Int)
    (t : List Int) (h : parsedOrders df = some (h0 :: t)) :
    ∃ b missing, order_no_check df = some (b, missing)
    ∧ (b = false ↔
        ∃ k, t.foldl min h0 < k ∧ k < t.foldl max h0 ∧ k ∉ h0 :: t)
    ∧ missing =
        ((intRange (t.foldl min h0 + 1) (t.foldl max h0)).filter
          (fun i => decide (i ∉ h0 :: t))).map
          (fun i => "#" ++ toString i) := by
  set M := ((intRange (t.foldl min h0 + 1) (t.foldl max h0)).filter
      (fun i => decide (i ∉ h0 :: t))).map (fun i => "#" ++ toString i)
    with hM
  refine ⟨M.isEmpty, M, ?_, ?_, rfl⟩
  · unfold order_no_check
    rw [h]
  · rw [List.isEmpty_eq_false, hM]
    constructor
    · intro hne
      have hfil : (intRange (t.foldl min h0 + 1) (t.foldl max h0)).filter
          (fun i => decide (i ∉ h0 :: t)) ≠ [] := by
        intro hq
        exact hne (by rw [hq]; rfl)
      obtain ⟨k, hk1, hk2⟩ := (filter_ne_nil_iff _ _).mp hfil
      rw [mem_intRange] at hk1
      exact ⟨k, by omega, by omega, by simpa using hk2⟩
    · rintro ⟨k, hk1, hk2, hk3⟩
      intro hmapnil
      rw [List.map_eq_nil_iff] at hmapnil
      have hkmem : k ∈ (intRange (t.foldl min h0 + 1)
          (t.foldl max h0)).filter (fun i => decide (i ∉ h0 :: t)) :=
        List.mem_filter.mpr
          ⟨mem_intRange.mpr ⟨by omega, by omega⟩, by simpa using hk3⟩
      rw [hmapnil] at hkmem
      exact absurd hkmem (List.not_mem_nil _)

/-- Claim C6, witness for the amended theorem at the `@`-marker table
(parsed values `[1, 3]`, gap at `2`). -/
theorem order_no_gap_detection_witness :
    ∃ b missing, order_no_check atMarkerGapTable = some (b, missing)
    ∧ (b = false ↔ ∃ k, List.foldl min 1 [3] < k ∧
        k < List.foldl max 1 [3] ∧ k ∉ (1 : Int) :: [3])
    ∧ missing =
        ((intRange (List.foldl min 1 [3] + 1) (List.foldl max 1 [3])).filter
          (fun i => decide (i ∉ (1 : Int) :: [3]))).map
          (fun i => "#" ++ toString i) :=
  order_no_gap_detection atMarkerGapTable 1 [3] (by decide)

lemma cellOfStr_eq_str {o : Option String} {s : String} :
    cellOfStr o = Cell.str s ↔ o = some s := by
  cases o <;> simp [cellOfStr]

lemma cellOfNum_eq_str_iff {o : Option ℚ} {s : String} :
    cellOfNum o = Cell.str s ↔ False := by
  cases o <;> simp [cellOfNum]

lemma cellOfInt_eq_str_iff {o : Option Int} {s : String} :
    cellOfInt o = Cell.str s ↔ False := by
  cases o <;> simp [cellOfInt]

lemma isNull_cellOfStr {o : Option String} :
    (cellOfStr o).isNull = o.isNone := by
  cases o <;> rfl

/-- An empty-string cell of a required column becomes null under
`df.replace("", np.nan)`. -/
lemma getCell_empty_null (r : InvoiceRow) (f : String)
    (hf : f ∈ INVOICE_REQUIRED_FIELDS) (h : getCell r f = Cell.str "") :
    (getCell (replaceEmptyRow r) f).isNull = true := by
  simp only [INVOICE_REQUIRED_FIELDS, List.mem_cons,
    List.not_mem_nil, or_false] at hf
  rcases hf with rfl | rfl | rfl | rfl | rfl | rfl | rfl | rfl | rfl |
    rfl | rfl | rfl <;>
  simp_all [getCell, cellOfStr_eq_str, cellOfNum_eq_str_iff,
    cellOfInt_eq_str_iff, isNull_cellOfStr, replaceEmptyRow,
    replaceEmptyStr]

/-- Claim C10: `verify_invoices` nulls empty strings before any check
runs; consequently a required column holding `""` makes the row's order
number appear in the required-field check's offending set for that
field, and a row whose `prod_no` and `prod_description` are both `""`
is collected by the identifier-or-description check. -/
theorem empty_strings_nulled_before_checks :
    (∀ (df : List InvoiceRow) (gw : Option (List String)),
        verify_invoices df gw = verify_checks (df.map replaceEmptyRow) gw)
    ∧ (∀ (df : List InvoiceRow) (r : InvoiceRow) (f : String),
        r ∈ df → f ∈ INVOICE_REQUIRED_FIELDS → getCell r f = Cell.str "" →
        (replaceEmptyRow r).order_no ∈
          missingFor (df.map replaceEmptyRow) f)
    ∧ ∀ (df : List InvoiceRow) (r : InvoiceRow),
        r ∈ df → r.prod_no = some "" → r.prod_description = some "" →
        (replaceEmptyRow r).order_no ∈
          description_or_sku_errors (df.map replaceEmptyRow) := by
  refine ⟨fun df gw => rfl, ?_, ?_⟩
  · intro df r f hr hf hcell
    unfold missingFor
    rw [List.mem_dedup]
    exact List.mem_map_of_mem _ (List.mem_filter.mpr
      ⟨List.mem_map_of_mem _ hr, getCell_empty_null r f hf hcell⟩)
  · intro df r hr h1 h2
    unfold description_or_sku_errors
    rw [List.mem_dedup]
    refine List.mem_map_of_mem _ (List.mem_filter.mpr
      ⟨List.mem_map_of_mem _ hr, ?_⟩)
    simp [replaceEmptyRow, replaceEmptyStr, h1, h2]

/-- Claim C10, witness: the all-empty-string row is flagged under
`ORDER LINE - VAT CODE` by the required-field check and collected by the
identifier-or-description check. -/
theorem empty_strings_nulled_before_checks_witness :
    (replaceEmptyRow emptyStringRow).order_no ∈
      missingFor ([emptyStringRow].map replaceEmptyRow)
        "ORDER LINE - VAT CODE"
    ∧ (replaceEmptyRow emptyStringRow).order_no ∈
      description_or_sku_errors ([emptyStringRow].map replaceEmptyRow) :=
  ⟨empty_strings_nulled_before_checks.2.1 [emptyStringRow] emptyStringRow
      "ORDER LINE - VAT CODE" (by simp) (by decide) (by decide),
   empty_strings_nulled_before_checks.2.2 [emptyStringRow] emptyStringRow
      (by simp) (by decide) (by decide)⟩

end ShopifyDb
